import Mathlib

/-!
Verification of the service-abstraction core of the engine
(`src/cloud_provider/service.rs`): the `Action` dispatch of
`StatelessService`/`StatefulService`, the `Service` base contract
(`is_listening`, `is_valid`, `default_tera_context`, `progress_scope`),
the `ServiceType`/`DatabaseType` classification enums and the
`ServiceError` taxonomy with its conversions.

The embedding is shallow: Rust `Result<(), E>` becomes `Except E Unit`;
trait objects become structures whose fields are the trait's methods;
external effects (TCP connection attempts, binary lookup on the host)
become explicit oracle functions passed in; the opaque external error
types `std::io::Error` and `CmdError` become type parameters.
-/

set_option autoImplicit false

namespace Engine

/-- `Action` (service.rs): the requested lifecycle transition.
Rust derives `Clone, Eq, PartialEq, Hash`; structural equality is
`DecidableEq` here. -/
inductive Action where
  | Create
  | Pause
  | Delete
  | Nothing
  deriving DecidableEq, Repr

/-- `DatabaseOptions` (service.rs): connection/provisioning parameters.
`u16`/`u32` fields are modelled as `Nat` (no arithmetic is performed on
them, so wrap-around cannot matter). -/
structure DatabaseOptions where
  login : String
  password : String
  host : String
  port : Nat
  disk_size_in_gib : Nat
  database_disk_type : String
  deriving DecidableEq, Repr

/-- `DatabaseType<'a>` (service.rs). The Rust variants carry
`&'a DatabaseOptions`; Rust's derived `PartialEq` on a reference compares
the pointed-to value, so the payload is embedded by value. -/
inductive DatabaseType where
  | PostgreSQL (opts : DatabaseOptions)
  | MongoDB (opts : DatabaseOptions)
  | MySQL (opts : DatabaseOptions)
  deriving DecidableEq, Repr

/-- `ServiceType<'a>` (service.rs). -/
inductive ServiceType where
  | Application
  | ExternalService
  | Database (db : DatabaseType)
  | Router
  deriving DecidableEq, Repr

/-- `ServiceType::name` (service.rs lines 210-219). -/
def ServiceType.name : ServiceType → String
  | .Application => "Application"
  | .ExternalService => "ExternalService"
  | .Database _ => "Database"
  | .Router => "Router"

/-- `ServiceError` (service.rs lines 221-229). `Cmd` wraps the external
`CmdError` and `Io` wraps `std::io::Error`; both external types are
opaque to this module, so they are type parameters `κe` and `ιe`. -/
inductive ServiceError (ιe κe : Type) where
  | OnCreateFailed
  | CheckFailed
  | Cmd (e : κe)
  | Io (e : ιe)
  | NotEnoughResources (reason : String)
  | Unexpected (reason : String)
  deriving DecidableEq, Repr

/-- `impl From<std::io::Error> for ServiceError` (service.rs 231-235). -/
def ServiceError.from_io_error {ιe κe : Type} (err : ιe) : ServiceError ιe κe :=
  ServiceError.Io err

/-- `impl From<CmdError> for ServiceError` (service.rs 237-241). -/
def ServiceError.from_cmd_error {ιe κe : Type} (err : κe) : ServiceError ιe κe :=
  ServiceError.Cmd err

/-- Payload extraction witnessing that `from_io_error` is lossless. -/
def ServiceError.io_error_payload {ιe κe : Type} : ServiceError ιe κe → Option ιe
  | .Io e => some e
  | _ => none

/-- Payload extraction witnessing that `from_cmd_error` is lossless. -/
def ServiceError.cmd_error_payload {ιe κe : Type} : ServiceError ιe κe → Option κe
  | .Cmd e => some e
  | _ => none

/-- Modelled from the spec: `ProgressScope` lives in `crate::models`,
outside the provided sources; per the spec (section 4.1) it is a
progress-reporting scope tag carrying the service id, with one variant
per service kind, as used by `Service::progress_scope`. -/
inductive ProgressScope where
  | Application (id : String)
  | ExternalService (id : String)
  | Database (id : String)
  | Router (id : String)
  deriving DecidableEq, Repr

/-- The `Service` trait's accessor methods (service.rs lines 15-25),
embedded as a record of the values the accessors return. The
`context()` accessor returns a `crate::models::Context` which no
claim touches, so it is omitted. -/
structure Service where
  service_type : ServiceType
  id : String
  name : String
  version : String
  action : Action
  private_port : Option Nat
  total_cpus : String
  total_ram_in_mib : Nat
  total_instances : Nat

/-- `Service::is_listening` (service.rs lines 26-36). The host's TCP
stack is the oracle `connect`: `TcpStream::connect(addr)` returning
`Ok(stream)` or `Err(e)` is `connect addr = .ok ()` or `.error e`. -/
def Service.is_listening {ιe : Type} (connect : String → Except ιe Unit)
    (s : Service) (ip : String) : Bool :=
  match s.private_port with
  | some private_port =>
    match connect (ip ++ ":" ++ toString private_port) with
    | .ok _ => true
    | .error _ => false
  | _ => false

/-- The fixed binary list of `Service::is_valid` (service.rs line 39). -/
def binaries : List String := ["kubectl", "helm", "terraform", "aws-iam-authenticator"]

/-- The `for binary in binaries.iter()` loop of `Service::is_valid`
(service.rs lines 41-46), with its early `return Err(..)`. -/
def is_valid_loop {ιe κe : Type} (does_binary_exist : String → Bool) :
    List String → Except (ServiceError ιe κe) Unit
  | [] => Except.ok ()
  | binary :: rest =>
    if !(does_binary_exist binary) then
      Except.error (ServiceError.Unexpected (binary ++ " binary not found"))
    else
      is_valid_loop does_binary_exist rest

/-- `Service::is_valid` (service.rs lines 38-51). Presence of a binary on
the host (`crate::cmd::utilities::does_binary_exist`) is the oracle. -/
def Service.is_valid {ιe κe : Type} (does_binary_exist : String → Bool) :
    Except (ServiceError ιe κe) Unit :=
  is_valid_loop does_binary_exist binaries

/-- A value insertable into the Tera template context. The source inserts
strings (`&str`/`String`), unsigned integers (`u16`/`u32`) and booleans;
`tera::Context::insert` serializes each. -/
inductive TeraValue where
  | str (s : String)
  | int (n : Nat)
  | bool (b : Bool)
  deriving DecidableEq, Repr

/-- `tera::Context` (external crate), as the sequence of key/value
insertions performed on it. -/
abbrev TeraContext := List (String × TeraValue)

/-- `tera::Context::new()`. -/
def TeraContext.new : TeraContext := []

/-- `tera::Context::insert(key, value)`: records the insertion; a later
insertion of the same key supersedes an earlier one (see `get`). -/
def TeraContext.insert (ctx : TeraContext) (key : String) (value : TeraValue) : TeraContext :=
  ctx ++ [(key, value)]

/-- Lookup in the context: the value of the latest insertion of `key`. -/
def TeraContext.get (ctx : TeraContext) (key : String) : Option TeraValue :=
  (ctx.reverse.find? (fun p => p.1 == key)).map (fun p => p.2)

/-- Modelled from the spec: `Environment` lives in
`crate::cloud_provider::environment`, outside the provided sources; per
the spec (section 6) it exposes `owner_id`, `project_id`,
`organization_id`, `id` and `namespace()`, embedded as the values those
accessors return. -/
structure Environment where
  owner_id : String
  project_id : String
  organization_id : String
  id : String
  «namespace» : String

/-- Modelled from the spec: the `Kubernetes` collaborator lives in
`crate::cloud_provider::kubernetes`, outside the provided sources; per
the spec (section 6) it exposes `region()` and `name()`. -/
structure Kubernetes where
  region : String
  name : String

/-- `Service::default_tera_context` (service.rs lines 53-81), insertion
for insertion. -/
def Service.default_tera_context (s : Service) (kubernetes : Kubernetes)
    (environment : Environment) : TeraContext :=
  let context := TeraContext.new
  let context := context.insert "id" (TeraValue.str s.id)
  let context := context.insert "owner_id" (TeraValue.str environment.owner_id)
  let context := context.insert "project_id" (TeraValue.str environment.project_id)
  let context := context.insert "organization_id" (TeraValue.str environment.organization_id)
  let context := context.insert "environment_id" (TeraValue.str environment.id)
  let context := context.insert "region" (TeraValue.str kubernetes.region)
  let context := context.insert "name" (TeraValue.str s.name)
  let context := context.insert "namespace" (TeraValue.str environment.«namespace»)
  let context := context.insert "cluster_name" (TeraValue.str kubernetes.name)
  let context := context.insert "total_cpus" (TeraValue.str s.total_cpus)
  let context := context.insert "total_ram_in_mib" (TeraValue.int s.total_ram_in_mib)
  let context := context.insert "total_instances" (TeraValue.int s.total_instances)
  let context := context.insert "is_private_port" (TeraValue.bool s.private_port.isSome)
  let context :=
    match s.private_port with
    | some private_port => context.insert "private_port" (TeraValue.int private_port)
    | none => context
  let context := context.insert "version" (TeraValue.str s.version)
  context

/-- `Service::progress_scope` (service.rs lines 83-92). -/
def Service.progress_scope (s : Service) : ProgressScope :=
  let id := s.id
  match s.service_type with
  | ServiceType.Application => ProgressScope.Application id
  | ServiceType.ExternalService => ProgressScope.ExternalService id
  | ServiceType.Database _ => ProgressScope.Database id
  | ServiceType.Router => ProgressScope.Router id

/-- The `Create` capability trait (service.rs lines 132-136): its three
methods, as the functions they denote. `τ` is the opaque
`DeploymentTarget`, `ε` the error type (`ServiceError` in use). The
no-argument check method is embedded as the result it returns. -/
structure Create (τ ε : Type) where
  on_create : τ → Except ε Unit
  on_create_check : Except ε Unit
  on_create_error : τ → Except ε Unit

/-- The `Pause` capability trait (service.rs lines 138-142). -/
structure Pause (τ ε : Type) where
  on_pause : τ → Except ε Unit
  on_pause_check : Except ε Unit
  on_pause_error : τ → Except ε Unit

/-- The `Delete` capability trait (service.rs lines 144-148). -/
structure Delete (τ ε : Type) where
  on_delete : τ → Except ε Unit
  on_delete_check : Except ε Unit
  on_delete_error : τ → Except ε Unit

/-- The `Backup` capability trait (service.rs lines 150-157), backup and
restore triads. -/
structure Backup (τ ε : Type) where
  on_backup : τ → Except ε Unit
  on_backup_check : Except ε Unit
  on_backup_error : τ → Except ε Unit
  on_restore : τ → Except ε Unit
  on_restore_check : Except ε Unit
  on_restore_error : τ → Except ε Unit

/-- The `Clone` capability trait (service.rs lines 159-163). -/
structure Clone (τ ε : Type) where
  on_clone : τ → Except ε Unit
  on_clone_check : Except ε Unit
  on_clone_error : τ → Except ε Unit

/-- The `Upgrade` capability trait (service.rs lines 165-169). -/
structure Upgrade (τ ε : Type) where
  on_upgrade : τ → Except ε Unit
  on_upgrade_check : Except ε Unit
  on_upgrade_error : τ → Except ε Unit

/-- The `Downgrade` capability trait (service.rs lines 171-175). -/
structure Downgrade (τ ε : Type) where
  on_downgrade : τ → Except ε Unit
  on_downgrade_check : Except ε Unit
  on_downgrade_error : τ → Except ε Unit

/-- `StatelessService: Service + Create + Pause + Delete`
(service.rs line 95): a value satisfying all four contracts. -/
structure StatelessService (τ ιe κe : Type) extends
  Service, Create τ (ServiceError ιe κe), Pause τ (ServiceError ιe κe),
  Delete τ (ServiceError ιe κe)

/-- `StatefulService: Service + Create + Pause + Delete + Backup + Clone
+ Upgrade + Downgrade` (service.rs lines 106-108). -/
structure StatefulService (τ ιe κe : Type) extends
  Service, Create τ (ServiceError ιe κe), Pause τ (ServiceError ιe κe),
  Delete τ (ServiceError ιe κe), Backup τ (ServiceError ιe κe),
  Clone τ (ServiceError ιe κe), Upgrade τ (ServiceError ιe κe),
  Downgrade τ (ServiceError ιe κe)

/-- `StatelessService::exec_action` (service.rs lines 96-103). -/
def StatelessService.exec_action {τ ιe κe : Type} (s : StatelessService τ ιe κe)
    (deployment_target : τ) : Except (ServiceError ιe κe) Unit :=
  match s.action with
  | Action.Create => s.on_create deployment_target
  | Action.Delete => s.on_delete deployment_target
  | Action.Pause => s.on_pause deployment_target
  | Action.Nothing => Except.ok ()

/-- `StatefulService::exec_action` (service.rs lines 109-116). -/
def StatefulService.exec_action {τ ιe κe : Type} (s : StatefulService τ ιe κe)
    (deployment_target : τ) : Except (ServiceError ιe κe) Unit :=
  match s.action with
  | Action.Create => s.on_create deployment_target
  | Action.Delete => s.on_delete deployment_target
  | Action.Pause => s.on_pause deployment_target
  | Action.Nothing => Except.ok ()

/-- The `StatelessService` view of a `StatefulService`: same `Service`
data and same Create/Pause/Delete methods, forgetting the
Backup/Clone/Upgrade/Downgrade capabilities. -/
def StatefulService.toStatelessService {τ ιe κe : Type}
    (s : StatefulService τ ιe κe) : StatelessService τ ιe κe :=
  { toService := s.toService, toCreate := s.toCreate, toPause := s.toPause,
    toDelete := s.toDelete }

/-- Modelled from the spec: `CommitError` lives in `crate::transaction`,
outside the provided sources. Per the spec (section 6) the five
environment/kubernetes transaction-phase variants carry the underlying
service error "when one is attached" (so an `Option ε` payload, matching
the identity `Option::from(e)` in the conversion), `NotValidService`
carries a service error, and further transaction-error kinds that "carry
no service-level cause" are collapsed here into `Other`. `ε` stands for
`ServiceError`. -/
inductive CommitError (ε : Type) where
  | DeleteEnvironment (e : Option ε)
  | PauseEnvironment (e : Option ε)
  | DeployEnvironment (e : Option ε)
  | DeleteKubernetes (e : Option ε)
  | CreateKubernetes (e : Option ε)
  | NotValidService (e : ε)
  | Other

/-- `impl From<CommitError> for Option<ServiceError>` (service.rs lines
243-255). `Option::from(e)` on the `Option<ServiceError>` payload is the
identity; the `_` arm yields `None`. -/
def CommitError.to_service_error {ε : Type} : CommitError ε → Option ε
  | .DeleteEnvironment e | .PauseEnvironment e | .DeployEnvironment e
  | .DeleteKubernetes e | .CreateKubernetes e => e
  | .NotValidService e => Option.some e
  | .Other => none

/-- Field-by-field equality of `DatabaseOptions`, what Rust's derived
`PartialEq` computes (service.rs line 185). -/
def DatabaseOptions.structEq (a b : DatabaseOptions) : Bool :=
  a.login == b.login && a.password == b.password && a.host == b.host &&
  a.port == b.port && a.disk_size_in_gib == b.disk_size_in_gib &&
  a.database_disk_type == b.database_disk_type

/-- Variant-tag plus referenced-options equality of `DatabaseType`, what
Rust's derived `PartialEq` computes (service.rs line 195): same variant
and the referenced `DatabaseOptions` equal by value. -/
def DatabaseType.structEq : DatabaseType → DatabaseType → Bool
  | .PostgreSQL a, .PostgreSQL b => a.structEq b
  | .MongoDB a, .MongoDB b => a.structEq b
  | .MySQL a, .MySQL b => a.structEq b
  | _, _ => false

/-- Variant-tag plus payload equality of `ServiceType`, what Rust's
derived `PartialEq` computes (service.rs line 202). -/
def ServiceType.structEq : ServiceType → ServiceType → Bool
  | .Application, .Application => true
  | .ExternalService, .ExternalService => true
  | .Database a, .Database b => a.structEq b
  | .Router, .Router => true
  | _, _ => false

/-- Shared helper: `DatabaseOptions.structEq` decides equality. -/
theorem databaseOptions_structEq_iff (a b : DatabaseOptions) :
    a.structEq b = true ↔ a = b := by
  cases a
  cases b
  simp [DatabaseOptions.structEq, DatabaseOptions.mk.injEq, and_assoc]

/-- Shared helper: `DatabaseType.structEq` decides equality. -/
theorem databaseType_structEq_iff (a b : DatabaseType) :
    a.structEq b = true ↔ a = b := by
  cases a <;> cases b <;>
    simp [DatabaseType.structEq, databaseOptions_structEq_iff]

/-- Shared helper: looking up the key just inserted yields its value. -/
theorem tera_get_insert_self (ctx : TeraContext) (k : String) (v : TeraValue) :
    (ctx.insert k v).get k = some v := by
  simp [TeraContext.get, TeraContext.insert, List.find?_cons]

/-- Shared helper: inserting under a different key leaves a lookup
unchanged. -/
theorem tera_get_insert_of_ne (ctx : TeraContext) (k k' : String) (v : TeraValue)
    (h : (k == k') = false) : (ctx.insert k v).get k' = ctx.get k' := by
  simp [TeraContext.get, TeraContext.insert, List.find?_cons, h]

/-- Shared helper: the empty context has no keys. -/
theorem tera_get_new (k : String) : TeraContext.new.get k = none := rfl

/-- C1: for every service and every `Action`, `exec_action(target)` calls
exactly the capability method specified for that action — `Create` only
`on_create`, `Delete` only `on_delete`, `Pause` only `on_pause`,
`Nothing` none — and returns that method's result unchanged. The check
and error hooks (`occ, oce, opc, ope, odc, ode`) and the non-selected
methods are arbitrary and absent from each right-hand side, so they are
never invoked and cannot influence the result. -/
theorem stateless_exec_action_dispatch {τ ιe κe : Type} (t : τ) (sv : Service)
    (oc : τ → Except (ServiceError ιe κe) Unit) (occ : Except (ServiceError ιe κe) Unit)
    (oce : τ → Except (ServiceError ιe κe) Unit)
    (op : τ → Except (ServiceError ιe κe) Unit) (opc : Except (ServiceError ιe κe) Unit)
    (ope : τ → Except (ServiceError ιe κe) Unit)
    (od : τ → Except (ServiceError ιe κe) Unit) (odc : Except (ServiceError ιe κe) Unit)
    (ode : τ → Except (ServiceError ιe κe) Unit) :
    StatelessService.exec_action
      ⟨{ sv with action := Action.Create }, ⟨oc, occ, oce⟩, ⟨op, opc, ope⟩, ⟨od, odc, ode⟩⟩ t
      = oc t ∧
    StatelessService.exec_action
      ⟨{ sv with action := Action.Delete }, ⟨oc, occ, oce⟩, ⟨op, opc, ope⟩, ⟨od, odc, ode⟩⟩ t
      = od t ∧
    StatelessService.exec_action
      ⟨{ sv with action := Action.Pause }, ⟨oc, occ, oce⟩, ⟨op, opc, ope⟩, ⟨od, odc, ode⟩⟩ t
      = op t ∧
    StatelessService.exec_action
      ⟨{ sv with action := Action.Nothing }, ⟨oc, occ, oce⟩, ⟨op, opc, ope⟩, ⟨od, odc, ode⟩⟩ t
      = Except.ok () :=
  ⟨rfl, rfl, rfl, rfl⟩

/-- C2: `is_valid()` checks the binaries in the fixed order kubectl,
helm, terraform, aws-iam-authenticator; it returns
`Unexpected("<binary> binary not found")` naming the first absent binary
(later binaries are not reached), and succeeds iff all four are
present. -/
theorem is_valid_first_missing_binary {ιe κe : Type} (does_binary_exist : String → Bool) :
    (Service.is_valid does_binary_exist : Except (ServiceError ιe κe) Unit) =
      (if does_binary_exist "kubectl" = false then
        Except.error (ServiceError.Unexpected "kubectl binary not found")
      else if does_binary_exist "helm" = false then
        Except.error (ServiceError.Unexpected "helm binary not found")
      else if does_binary_exist "terraform" = false then
        Except.error (ServiceError.Unexpected "terraform binary not found")
      else if does_binary_exist "aws-iam-authenticator" = false then
        Except.error (ServiceError.Unexpected "aws-iam-authenticator binary not found")
      else Except.ok ()) ∧
    ((Service.is_valid does_binary_exist : Except (ServiceError ιe κe) Unit) = Except.ok () ↔
      does_binary_exist "kubectl" = true ∧ does_binary_exist "helm" = true ∧
      does_binary_exist "terraform" = true ∧
      does_binary_exist "aws-iam-authenticator" = true) := by
  simp only [Service.is_valid, binaries, is_valid_loop]
  cases h1 : does_binary_exist "kubectl" <;>
    cases h2 : does_binary_exist "helm" <;>
      cases h3 : does_binary_exist "terraform" <;>
        cases h4 : does_binary_exist "aws-iam-authenticator" <;>
          simp [h1, h2, h3, h4]

/-- C3: `progress_scope()` is a total, deterministic function of the
service's `ServiceType`: each variant maps to the same-named scope, a
`Database` of any `DatabaseType` maps to the `Database` scope, and the
scope carries exactly the service's `id()`. -/
theorem progress_scope_total_carries_id (s : Service) (db : DatabaseType) :
    Service.progress_scope { s with service_type := ServiceType.Application }
      = ProgressScope.Application s.id ∧
    Service.progress_scope { s with service_type := ServiceType.ExternalService }
      = ProgressScope.ExternalService s.id ∧
    Service.progress_scope { s with service_type := ServiceType.Database db }
      = ProgressScope.Database s.id ∧
    Service.progress_scope { s with service_type := ServiceType.Router }
      = ProgressScope.Router s.id :=
  ⟨rfl, rfl, rfl, rfl⟩

/-- C4: `is_listening(address)` is Bool-valued (it cannot raise or return
an error); it is `false` whenever `private_port` is `none` — for every
connection oracle, so no connection is attempted — it is `true` iff the
connection attempt to `address:private_port` succeeds, and in particular
a service with `private_port = some 8080` probed at `127.0.0.1` against
a host where the connection attempt fails gets `false`. -/
theorem is_listening_never_errors {ιe : Type} (connect : String → Except ιe Unit)
    (s : Service) (ip : String) (p : Nat) (e0 : ιe) :
    Service.is_listening connect { s with private_port := none } ip = false ∧
    (Service.is_listening connect { s with private_port := some p } ip = true ↔
      connect (ip ++ ":" ++ toString p) = Except.ok ()) ∧
    Service.is_listening (fun _ => Except.error e0)
      { s with private_port := some 8080 } "127.0.0.1" = false := by
  refine ⟨rfl, ?_, rfl⟩
  rcases h : connect (ip ++ ":" ++ toString p) with e | ⟨⟩ <;>
    simp [Service.is_listening, h]

/-- C5: the `CommitError → Option<ServiceError>` conversion yields the
attached service error for the five environment/kubernetes
transaction-phase variants, a present error value for `NotValidService`,
and `none` for every other commit-error kind. -/
theorem commit_error_to_service_error_mapping {ιe κe : Type} :
    (∀ e : ServiceError ιe κe,
      CommitError.to_service_error (CommitError.DeleteEnvironment (some e)) = some e) ∧
    (∀ e : ServiceError ιe κe,
      CommitError.to_service_error (CommitError.PauseEnvironment (some e)) = some e) ∧
    (∀ e : ServiceError ιe κe,
      CommitError.to_service_error (CommitError.DeployEnvironment (some e)) = some e) ∧
    (∀ e : ServiceError ιe κe,
      CommitError.to_service_error (CommitError.DeleteKubernetes (some e)) = some e) ∧
    (∀ e : ServiceError ιe κe,
      CommitError.to_service_error (CommitError.CreateKubernetes (some e)) = some e) ∧
    (∀ e : ServiceError ιe κe,
      CommitError.to_service_error (CommitError.NotValidService e) = some e) ∧
    CommitError.to_service_error (CommitError.Other : CommitError (ServiceError ιe κe))
      = none :=
  ⟨fun _ => rfl, fun _ => rfl, fun _ => rfl, fun _ => rfl, fun _ => rfl, fun _ => rfl, rfl⟩

/-- C6: the conversions into `ServiceError` are total and lossless: every
I/O error value `eio` converts to exactly `ServiceError.Io eio` and every
command error value `ecmd` to exactly `ServiceError.Cmd ecmd`, and the
original value is recoverable from the wrapper. -/
theorem service_error_conversions_lossless {ιe κe : Type} (eio : ιe) (ecmd : κe) :
    (ServiceError.from_io_error eio : ServiceError ιe κe) = ServiceError.Io eio ∧
    (ServiceError.from_cmd_error ecmd : ServiceError ιe κe) = ServiceError.Cmd ecmd ∧
    (ServiceError.from_io_error eio : ServiceError ιe κe).io_error_payload = some eio ∧
    (ServiceError.from_cmd_error ecmd : ServiceError ιe κe).cmd_error_payload = some ecmd :=
  ⟨rfl, rfl, rfl, rfl⟩

/-- C7: `default_tera_context` populates every required key with the
value projected from the service, cluster and environment;
`is_private_port` is whether `private_port()` is present, and
`private_port` is in the context iff that is true, holding the declared
port. -/
theorem default_tera_context_required_keys (s : Service) (kubernetes : Kubernetes)
    (environment : Environment) :
    (Service.default_tera_context s kubernetes environment).get "id"
      = some (TeraValue.str s.id) ∧
    (Service.default_tera_context s kubernetes environment).get "owner_id"
      = some (TeraValue.str environment.owner_id) ∧
    (Service.default_tera_context s kubernetes environment).get "project_id"
      = some (TeraValue.str environment.project_id) ∧
    (Service.default_tera_context s kubernetes environment).get "organization_id"
      = some (TeraValue.str environment.organization_id) ∧
    (Service.default_tera_context s kubernetes environment).get "environment_id"
      = some (TeraValue.str environment.id) ∧
    (Service.default_tera_context s kubernetes environment).get "region"
      = some (TeraValue.str kubernetes.region) ∧
    (Service.default_tera_context s kubernetes environment).get "name"
      = some (TeraValue.str s.name) ∧
    (Service.default_tera_context s kubernetes environment).get "namespace"
      = some (TeraValue.str environment.«namespace») ∧
    (Service.default_tera_context s kubernetes environment).get "cluster_name"
      = some (TeraValue.str kubernetes.name) ∧
    (Service.default_tera_context s kubernetes environment).get "total_cpus"
      = some (TeraValue.str s.total_cpus) ∧
    (Service.default_tera_context s kubernetes environment).get "total_ram_in_mib"
      = some (TeraValue.int s.total_ram_in_mib) ∧
    (Service.default_tera_context s kubernetes environment).get "total_instances"
      = some (TeraValue.int s.total_instances) ∧
    (Service.default_tera_context s kubernetes environment).get "is_private_port"
      = some (TeraValue.bool s.private_port.isSome) ∧
    (Service.default_tera_context s kubernetes environment).get "private_port"
      = Option.map (fun p => TeraValue.int p) s.private_port ∧
    (Service.default_tera_context s kubernetes environment).get "version"
      = some (TeraValue.str s.version) := by
  obtain ⟨st, idv, namev, verv, act, pp, cpus, ram, inst⟩ := s
  rcases pp with _ | p <;>
    simp [Service.default_tera_context, tera_get_insert_self, tera_get_insert_of_ne,
      tera_get_new]

/-- C8: equality on `ServiceType` (and nested `DatabaseType`) is
structural: two values are equal iff they have the same variant tag and,
for `Database`, the same `DatabaseType` variant whose referenced
`DatabaseOptions` agree field by field (compared by value). -/
theorem service_type_eq_structural (a b : ServiceType) :
    a = b ↔ ServiceType.structEq a b = true := by
  cases a <;> cases b <;>
    simp [ServiceType.structEq, databaseType_structEq_iff]

/-- C9: `ServiceType::name()` is total and returns exactly the variant's
name; in particular `Database(PostgreSQL(&opts))` yields the literal
string "Database", for every options value and every database
sub-classification. -/
theorem service_type_name_total (opts : DatabaseOptions) (db : DatabaseType) :
    (ServiceType.Database (DatabaseType.PostgreSQL opts)).name = "Database" ∧
    ServiceType.Application.name = "Application" ∧
    ServiceType.ExternalService.name = "ExternalService" ∧
    ServiceType.Router.name = "Router" ∧
    (ServiceType.Database db).name = "Database" :=
  ⟨rfl, rfl, rfl, rfl, rfl⟩

/-- C10: the two `exec_action` dispatchers behave identically: for every
stateful service, `StatefulService::exec_action` returns exactly what
`StatelessService::exec_action` returns on the Create/Pause/Delete view
of the same service, for every `Action`; since the view discards the
Backup, Clone, Upgrade and Downgrade capabilities, those methods are
never invoked and cannot influence the result. -/
theorem stateful_stateless_exec_action_agree {τ ιe κe : Type}
    (s : StatefulService τ ιe κe) (t : τ) :
    StatefulService.exec_action s t
      = StatelessService.exec_action s.toStatelessService t := by
  obtain ⟨⟨st, idv, namev, verv, act, pp, cpus, ram, inst⟩, c, p, d, b, cl, u, dg⟩ := s
  cases act <;> rfl

end Engine
